import Mathlib

/-!
Verification of the MeetSpot configuration loader (`app/config_simple.py`)
and server bootstrap (`web_server.py`) against their specification.

The Python modules are shallowly embedded: environment-variable lookups
become fields of an `Env` record (`none` = unset), the TOML config file
becomes a `ConfigFile` value (absent, malformed, or parsed tables), and
pydantic model construction becomes `Except`-returning validators.  The
`try/except` of `Config._load_initial_config` becomes a total function
that pattern-matches on the `Except` result of the try-body.
-/

namespace MeetSpot

/-- Process environment: the four variables the two modules read.
`none` models an unset variable, `some s` a variable set to `s`
(possibly the empty string). -/
structure Env where
  amap_api_key : Option String
  amap_security_js_code : Option String
  port : Option String
  railway_environment : Option String
deriving Repr, DecidableEq

/-- Python truthiness of `os.getenv(name)`: truthy iff the variable is set
to a non-empty string. -/
def envTruthy : Option String → Bool
  | none => false
  | some s => s ≠ ""

/-- A TOML value as far as pydantic validation cares: either a string, or a
non-string value carrying its Python truthiness. -/
inductive TVal where
  | str (s : String)
  | nonStr (truthy : Bool)
deriving Repr, DecidableEq

/-- Python truthiness of `dict.get(key)`: `None` is falsy, a string is
truthy iff non-empty, other values carry their own truthiness. -/
def tvalTruthy : Option TVal → Bool
  | none => false
  | some (.str s) => s ≠ ""
  | some (.nonStr b) => b

/-- The `[amap]` table of `config/config.toml`. -/
structure AmapTable where
  api_key : Option TVal
  security_js_code : Option TVal
deriving Repr, DecidableEq

/-- The `[log]` table of `config/config.toml`. -/
structure LogTable where
  level : Option TVal
  file_path : Option TVal
deriving Repr, DecidableEq

/-- The parsed content of `config/config.toml`: an optional `[amap]` table
and an optional `[log]` table. -/
structure TomlData where
  amap : Option AmapTable
  log : Option LogTable
deriving Repr, DecidableEq

/-- The state of `config/config.toml` on disk: missing, unreadable or
malformed (so that `tomllib.load` raises), or successfully parsed. -/
inductive ConfigFile where
  | absent
  | malformed
  | parsed (d : TomlData)
deriving Repr, DecidableEq

/-- Model of `AMapSettings`: `api_key: str` (required), `security_js_code:
Optional[str]` (default `None`). -/
structure AMapSettings where
  api_key : String
  security_js_code : Option String
deriving Repr, DecidableEq

/-- Model of `LogSettings`: `level: str` (default `"INFO"`), `file_path:
str` (default `"logs/meetspot.log"`). -/
structure LogSettings where
  level : String
  file_path : String
deriving Repr, DecidableEq

/-- The default `LogSettings()` instance. -/
def LogSettings.default : LogSettings :=
  { level := "INFO", file_path := "logs/meetspot.log" }

/-- Model of `AppConfig`: the amap credentials plus log settings (field
default `LogSettings()`). -/
structure AppConfig where
  amap : AMapSettings
  log : LogSettings
deriving Repr, DecidableEq

/-- Pydantic construction `AMapSettings(**amap_config)`: `api_key` must be
present and a string; `security_js_code` defaults to `None` when absent and
must be a string when present. -/
def mkAMapSettings (t : AmapTable) : Except String AMapSettings :=
  match t.api_key with
  | some (.str k) =>
    match t.security_js_code with
    | none => .ok { api_key := k, security_js_code := none }
    | some (.str c) => .ok { api_key := k, security_js_code := some c }
    | some (.nonStr _) => .error "ValidationError: security_js_code"
  | some (.nonStr _) => .error "ValidationError: api_key"
  | none => .error "ValidationError: api_key missing"

/-- Pydantic construction of `LogSettings` from the optional `log` table:
each field defaults when absent and must be a string when present. -/
def mkLogSettings (t : Option LogTable) : Except String LogSettings :=
  let tt := t.getD { level := none, file_path := none }
  match tt.level with
  | some (.nonStr _) => .error "ValidationError: level"
  | some (.str l) =>
    match tt.file_path with
    | some (.nonStr _) => .error "ValidationError: file_path"
    | some (.str f) => .ok { level := l, file_path := f }
    | none => .ok { level := l, file_path := "logs/meetspot.log" }
  | none =>
    match tt.file_path with
    | some (.nonStr _) => .error "ValidationError: file_path"
    | some (.str f) => .ok { level := "INFO", file_path := f }
    | none => .ok LogSettings.default

/-- The try-body of `Config._load_initial_config`: environment override
first, then the config file; raising is modelled as returning `.error`. -/
def loadBody (env : Env) (file : ConfigFile) : Except String AppConfig :=
  if envTruthy env.amap_api_key then
    .ok { amap := { api_key := env.amap_api_key.getD ""
                  , security_js_code := some (env.amap_security_js_code.getD "") }
        , log := LogSettings.default }
  else
    match file with
    | .absent => .error "FileNotFoundError"
    | .malformed => .error "TOMLDecodeError"
    | .parsed d =>
      let amap_config := d.amap.getD { api_key := none, security_js_code := none }
      if tvalTruthy amap_config.api_key then
        match mkAMapSettings amap_config with
        | .error e => .error e
        | .ok a =>
          match mkLogSettings d.log with
          | .error e => .error e
          | .ok l => .ok { amap := a, log := l }
      else
        .error "ValueError: api key not configured"

/-- The default configuration built in the `except` branch: credentials
read purely from environment variables, defaulting to empty strings. -/
def fallbackConfig (env : Env) : AppConfig :=
  { amap := { api_key := env.amap_api_key.getD ""
            , security_js_code := some (env.amap_security_js_code.getD "") }
  , log := LogSettings.default }

/-- Model of `Config._load_initial_config`: run the try-body; on any
exception print a warning (second component `true`) and fall back to
`fallbackConfig`. -/
def load_initial_config (env : Env) (file : ConfigFile) : AppConfig × Bool :=
  match loadBody env file with
  | .ok c => (c, false)
  | .error _ => (fallbackConfig env, true)

/-- The singleton's state: the cached `_config` snapshot, `none` before
first initialization. -/
structure ConfigState where
  snapshot : Option AppConfig
deriving Repr, DecidableEq

/-- Reading the settings (the `config.amap` / `config.log` access path):
returns the cached snapshot, building it on first access.  The second
component of the first projection records whether a fallback warning was
printed by this call. -/
def get_settings (s : ConfigState) (env : Env) (file : ConfigFile) :
    (AppConfig × Bool) × ConfigState :=
  match s.snapshot with
  | some c => ((c, false), s)
  | none =>
    let r := load_initial_config env file
    (r, ⟨some r.1⟩)

/-- Model of `Config.reload`: re-runs `_load_initial_config` from scratch
under the current environment and file, replacing the snapshot whatever it
was. -/
def reloadConfig (_s : ConfigState) (env : Env) (file : ConfigFile) : ConfigState :=
  ⟨some (load_initial_config env file).1⟩

end MeetSpot

namespace MeetSpot.WebServer

/-- Outcome of `from api.index import app` / `import uvicorn`. -/
inductive ImportOutcome where
  | success
  | failure
deriving Repr, DecidableEq

/-- Outcome of the `uvicorn.run(...)` call: returns normally on shutdown,
or raises during startup. -/
inductive ServeOutcome where
  | normalShutdown
  | exception
deriving Repr, DecidableEq

/-- Which startup banner `main` prints. -/
inductive Banner where
  | production
  | local
deriving Repr, DecidableEq

/-- The arguments `main` passes to `uvicorn.run`. -/
structure ServeCall where
  host : String
  portNum : Int
  liveReload : Bool
deriving Repr, DecidableEq

/-- Everything observable about one run of `web_server.main`. -/
structure MainResult where
  exitCode : Nat
  importDiag : Bool
  startupDiag : Bool
  banner : Option Banner
  serve : Option ServeCall
deriving Repr, DecidableEq

/-- Surrounding-whitespace removal, on the character list of a string. -/
def pyStrip (cs : List Char) : List Char :=
  ((cs.dropWhile Char.isWhitespace).reverse.dropWhile Char.isWhitespace).reverse

/-- Value of a decimal digit sequence. -/
def digitsToNat (cs : List Char) : Nat :=
  cs.foldl (fun acc c => acc * 10 + (c.toNat - 48)) 0

/-- Python `int(s)` on a string: optional surrounding whitespace, an
optional sign, then a non-empty digit sequence; anything else raises
`ValueError` (`none`). -/
def pyIntParse (s : String) : Option Int :=
  match pyStrip s.data with
  | [] => none
  | c :: rest =>
    let neg : Bool := c = '-'
    let digits := if c = '-' ∨ c = '+' then rest else c :: rest
    if digits ≠ [] ∧ digits.all Char.isDigit then
      some (if neg then -(digitsToNat digits : Int) else (digitsToNat digits : Int))
    else
      none

/-- Port resolution `int(os.environ.get("PORT", 11024))`: `11024` when
`PORT` is unset, otherwise Python integer parsing of its value (`none`
means `ValueError`). -/
def resolvePort (env : Env) : Option Int :=
  match env.port with
  | none => some 11024
  | some s => pyIntParse s

/-- Model of `web_server.main`: import the app, resolve the port, print a
banner, run uvicorn on `0.0.0.0` with live-reload outside production;
every exception path prints a diagnostic and exits with code 1. -/
def main (imp : ImportOutcome) (env : Env) (serve : ServeOutcome) : MainResult :=
  match imp with
  | .failure =>
    { exitCode := 1, importDiag := true, startupDiag := false
    , banner := none, serve := none }
  | .success =>
    match resolvePort env with
    | none =>
      { exitCode := 1, importDiag := false, startupDiag := true
      , banner := none, serve := none }
    | some p =>
      let isProduction := env.railway_environment.isSome
      let b : Banner := if isProduction then .production else .local
      let call : ServeCall := { host := "0.0.0.0", portNum := p, liveReload := !isProduction }
      match serve with
      | .normalShutdown =>
        { exitCode := 0, importDiag := false, startupDiag := false
        , banner := some b, serve := some call }
      | .exception =>
        { exitCode := 1, importDiag := false, startupDiag := true
        , banner := some b, serve := some call }

end MeetSpot.WebServer

namespace MeetSpot

/-- Helper: whenever the API-key environment variable is truthy, resolution
returns the environment-built configuration without a warning, for any
state of the config file. -/
theorem load_env_override_eq (env : Env) (file : ConfigFile)
    (h : envTruthy env.amap_api_key = true) :
    load_initial_config env file =
      ({ amap := { api_key := env.amap_api_key.getD ""
                 , security_js_code := some (env.amap_security_js_code.getD "") }
       , log := LogSettings.default }, false) := by
  simp [load_initial_config, loadBody, h]

/-- C1: when the AMAP_API_KEY environment variable is set and non-empty,
the first access builds the settings from environment variables alone:
the api key equals the variable's value regardless of the config file,
the security code comes from its environment variable defaulting to the
empty string, log settings stay at their default, and no warning is
printed. -/
theorem c1_env_override (env : Env) (file : ConfigFile) (k : String)
    (hk : env.amap_api_key = some k) (hne : k ≠ "") :
    (get_settings ⟨none⟩ env file).1 =
      ({ amap := { api_key := k
                 , security_js_code := some (env.amap_security_js_code.getD "") }
       , log := LogSettings.default }, false) := by
  have ht : envTruthy env.amap_api_key = true := by simp [envTruthy, hk, hne]
  simp [get_settings, load_env_override_eq env file ht, hk]

/-- Witness for C1 at a concrete environment and absent file. -/
theorem c1_env_override_witness :
    (get_settings ⟨none⟩ ⟨some "abc123", some "sec", none, none⟩ ConfigFile.absent).1 =
      ({ amap := { api_key := "abc123", security_js_code := some "sec" }
       , log := LogSettings.default }, false) :=
  c1_env_override ⟨some "abc123", some "sec", none, none⟩ ConfigFile.absent "abc123"
    rfl (by decide)

/-- C2: when the environment variable is not truthy and the config file
parses with a map table holding a non-empty string api key, and both
tables validate, the resolved settings are exactly the validated file
settings: the api key equals the file's value, the log settings come from
the optional log table, defaulting when that table is absent. -/
theorem c2_file_config (env : Env) (d : TomlData) (t : AmapTable) (k : String)
    (a : AMapSettings) (l : LogSettings)
    (henv : envTruthy env.amap_api_key = false)
    (ht : d.amap = some t) (hk : t.api_key = some (.str k)) (hne : k ≠ "")
    (ha : mkAMapSettings t = .ok a) (hl : mkLogSettings d.log = .ok l) :
    (get_settings ⟨none⟩ env (.parsed d)).1 = ({ amap := a, log := l }, false) ∧
    a.api_key = k ∧
    (d.log = none → l = LogSettings.default) := by
  have htruthy : tvalTruthy t.api_key = true := by simp [tvalTruthy, hk, hne]
  refine ⟨?_, ?_, ?_⟩
  · simp [get_settings, load_initial_config, loadBody, henv, ht, htruthy, ha, hl]
  · cases hsc : t.security_js_code with
    | none => simp [mkAMapSettings, hk, hsc] at ha; simp [← ha]
    | some v =>
      cases v with
      | str c => simp [mkAMapSettings, hk, hsc] at ha; simp [← ha]
      | nonStr b => simp [mkAMapSettings, hk, hsc] at ha
  · intro h0
    simp [mkLogSettings, h0] at hl
    exact hl.symm

/-- Witness for C2 with a concrete file holding api key xyz and no log
table. -/
theorem c2_file_config_witness :
    (get_settings ⟨none⟩ ⟨none, none, none, none⟩
        (ConfigFile.parsed ⟨some ⟨some (.str "xyz"), none⟩, none⟩)).1 =
      ({ amap := { api_key := "xyz", security_js_code := none }
       , log := LogSettings.default }, false) ∧
    AMapSettings.api_key { api_key := "xyz", security_js_code := none } = "xyz" ∧
    ((⟨some ⟨some (.str "xyz"), none⟩, none⟩ : TomlData).log = none →
      LogSettings.default = LogSettings.default) :=
  c2_file_config ⟨none, none, none, none⟩ ⟨some ⟨some (.str "xyz"), none⟩, none⟩
    ⟨some (.str "xyz"), none⟩ "xyz" { api_key := "xyz", security_js_code := none }
    LogSettings.default rfl rfl rfl (by decide) rfl rfl

/-- C3: resolution never raises: whenever the try-body raises any
exception, the error is caught, a warning is printed (flag `true`), and
the result is the fallback built purely from environment variables
(possibly empty strings) with default log settings, so a configuration
value is always produced. -/
theorem c3_fallback_total (env : Env) (file : ConfigFile) (e : String)
    (herr : loadBody env file = .error e) :
    get_settings ⟨none⟩ env file =
      ((fallbackConfig env, true), ⟨some (fallbackConfig env)⟩) ∧
    fallbackConfig env =
      { amap := { api_key := env.amap_api_key.getD ""
                , security_js_code := some (env.amap_security_js_code.getD "") }
      , log := LogSettings.default } := by
  constructor
  · simp [get_settings, load_initial_config, herr]
  · rfl

/-- Witness for C3 at an empty environment and absent config file. -/
theorem c3_fallback_total_witness :
    get_settings ⟨none⟩ ⟨none, none, none, none⟩ ConfigFile.absent =
      ((fallbackConfig ⟨none, none, none, none⟩, true),
        ⟨some (fallbackConfig ⟨none, none, none, none⟩)⟩) ∧
    fallbackConfig ⟨none, none, none, none⟩ =
      { amap := { api_key := "", security_js_code := some "" }
      , log := LogSettings.default } :=
  c3_fallback_total ⟨none, none, none, none⟩ ConfigFile.absent "FileNotFoundError" rfl

/-- C5 as stated is false: with the API-key variable unset but the
security-code variable set to s3c and the config file absent, the
resolved security code is s3c, not the empty string. -/
theorem c5_counterexample :
    (get_settings ⟨none⟩ ⟨none, some "s3c", none, none⟩
        ConfigFile.absent).1.1.amap.security_js_code ≠ some "" := by
  decide

/-- C5 amended: when the config file does not exist and neither the
API-key nor the security-code environment variable is set, the first
access returns settings with empty api key, empty security code and
default log settings, and the fallback warning is emitted. -/
theorem c5_fallback_defaults (env : Env)
    (hk : env.amap_api_key = none) (hs : env.amap_security_js_code = none) :
    (get_settings ⟨none⟩ env ConfigFile.absent).1 =
      ({ amap := { api_key := "", security_js_code := some "" }
       , log := LogSettings.default }, true) := by
  simp [get_settings, load_initial_config, loadBody, fallbackConfig, envTruthy, hk, hs]

/-- Witness for the amended C5 at the empty environment. -/
theorem c5_fallback_defaults_witness :
    (get_settings ⟨none⟩ ⟨none, none, none, none⟩ ConfigFile.absent).1 =
      ({ amap := { api_key := "", security_js_code := some "" }
       , log := LogSettings.default }, true) :=
  c5_fallback_defaults ⟨none, none, none, none⟩ rfl rfl

end MeetSpot

namespace MeetSpot.WebServer

/-- C4 as stated is false: with PORT set to the unparsable string abc,
`main` never invokes the server (so no default port 11024 is used) and
the process exits with code 1. -/
theorem c4_counterexample :
    (main .success ⟨none, none, some "abc", none⟩ .normalShutdown).serve = none ∧
    (main .success ⟨none, none, some "abc", none⟩ .normalShutdown).exitCode = 1 := by
  decide

/-- C4 amended: the listening port is determined from the PORT
environment variable and defaults to 11024 only when PORT is unset; when
PORT is set but unparsable as an integer, the bootstrap prints a startup
diagnostic and exits with code 1 without invoking the server. -/
theorem c4_port_resolution (env : Env) :
    (env.port = none → resolvePort env = some 11024) ∧
    (∀ s, env.port = some s → pyIntParse s = none →
      main .success env .normalShutdown =
        { exitCode := 1, importDiag := false, startupDiag := true
        , banner := none, serve := none }) ∧
    (∀ s p o, env.port = some s → pyIntParse s = some p →
      Option.map ServeCall.portNum (main .success env o).serve = some p) := by
  refine ⟨?_, ?_, ?_⟩
  · intro h; simp [resolvePort, h]
  · intro s hs hp; simp [main, resolvePort, hs, hp]
  · intro s p o hs hp
    cases o <;> simp [main, resolvePort, hs, hp]

/-- Witness for the amended C4: unset PORT resolves to 11024, PORT=abc
exits with code 1, PORT=8080 serves on port 8080. -/
theorem c4_port_resolution_witness :
    resolvePort ⟨none, none, none, none⟩ = some 11024 ∧
    main .success ⟨none, none, some "abc", none⟩ .normalShutdown =
      { exitCode := 1, importDiag := false, startupDiag := true
      , banner := none, serve := none } ∧
    Option.map ServeCall.portNum
        (main .success ⟨none, none, some "8080", none⟩ .normalShutdown).serve =
      some 8080 :=
  ⟨(c4_port_resolution ⟨none, none, none, none⟩).1 rfl,
   (c4_port_resolution ⟨none, none, some "abc", none⟩).2.1 "abc" rfl (by decide),
   (c4_port_resolution ⟨none, none, some "8080", none⟩).2.2 "8080" 8080
     .normalShutdown rfl (by decide)⟩

end MeetSpot.WebServer

namespace MeetSpot.WebServer

/-- C6: exit codes of the bootstrap: import failure prints the
missing-dependency diagnostic and exits 1; any startup exception (an
unparsable port or an exception from the server call) prints a diagnostic
and exits 1; a normal shutdown exits 0.  The model has no retry path. -/
theorem c6_exit_codes (env : Env) (o : ServeOutcome) :
    ((main .failure env o).exitCode = 1 ∧ (main .failure env o).importDiag = true) ∧
    (∀ p, resolvePort env = some p →
      (main .success env .exception).exitCode = 1 ∧
      (main .success env .exception).startupDiag = true) ∧
    (resolvePort env = none →
      (main .success env o).exitCode = 1 ∧
      (main .success env o).startupDiag = true) ∧
    (∀ p, resolvePort env = some p →
      (main .success env .normalShutdown).exitCode = 0) := by
  refine ⟨⟨rfl, rfl⟩, ?_, ?_, ?_⟩
  · intro p hp; simp [main, hp]
  · intro hp; cases o <;> simp [main, hp]
  · intro p hp; simp [main, hp]

/-- Witness for C6 exercising all four exit-code cases. -/
theorem c6_exit_codes_witness :
    (main .failure ⟨none, none, none, none⟩ .normalShutdown).exitCode = 1 ∧
    (main .success ⟨none, none, none, none⟩ .exception).exitCode = 1 ∧
    (main .success ⟨none, none, some "bad", none⟩ .normalShutdown).exitCode = 1 ∧
    (main .success ⟨none, none, none, none⟩ .normalShutdown).exitCode = 0 :=
  ⟨(c6_exit_codes ⟨none, none, none, none⟩ .normalShutdown).1.1,
   ((c6_exit_codes ⟨none, none, none, none⟩ .normalShutdown).2.1 11024 rfl).1,
   ((c6_exit_codes ⟨none, none, some "bad", none⟩ .normalShutdown).2.2.1 (by decide)).1,
   (c6_exit_codes ⟨none, none, none, none⟩ .normalShutdown).2.2.2 11024 rfl⟩

/-- C8: production mode is exactly the presence of RAILWAY_ENVIRONMENT:
the server is invoked on host 0.0.0.0 at the resolved port with
live-reload enabled iff not in production, the banner is selected by the
mode, and neither the exit code of the bootstrap nor configuration
resolution depends on that variable. -/
theorem c8_production_mode (env : Env) (p : Int) (o : ServeOutcome)
    (hp : resolvePort env = some p) :
    (main .success env o).serve =
      some { host := "0.0.0.0", portNum := p
           , liveReload := !env.railway_environment.isSome } ∧
    (main .success env o).banner =
      some (if env.railway_environment.isSome then Banner.production else Banner.local) ∧
    (∀ r o2, (main .success { env with railway_environment := r } o2).exitCode =
      (main .success env o2).exitCode) ∧
    (∀ r file, MeetSpot.load_initial_config { env with railway_environment := r } file =
      MeetSpot.load_initial_config env file) := by
  refine ⟨?_, ?_, ?_, ?_⟩
  · cases o <;> simp [main, hp]
  · cases o <;> simp [main, hp]
  · intro r o2
    have hrp : resolvePort { env with railway_environment := r } = resolvePort env := rfl
    cases hq : resolvePort env <;> cases o2 <;> simp [main, hq, hrp.trans hq]
  · intro r file; rfl

/-- Witness for C8 in production mode with the default port. -/
theorem c8_production_mode_witness :
    (main .success ⟨none, none, none, some "prod"⟩ .normalShutdown).serve =
      some { host := "0.0.0.0", portNum := 11024, liveReload := false } ∧
    (main .success ⟨none, none, none, some "prod"⟩ .normalShutdown).banner =
      some Banner.production :=
  ⟨(c8_production_mode ⟨none, none, none, some "prod"⟩ 11024 .normalShutdown rfl).1,
   (c8_production_mode ⟨none, none, none, some "prod"⟩ 11024 .normalShutdown rfl).2.1⟩

end MeetSpot.WebServer

namespace MeetSpot

/-- C7: reload re-runs the full resolution chain from scratch and
replaces the snapshot whatever it was, so the next read returns the fresh
resolution; in particular a change of the API-key environment variable
made before the reload is reflected in the next read. -/
theorem c7_reload (s : ConfigState) (env env2 : Env) (file file2 : ConfigFile)
    (k : String) (hk : env.amap_api_key = some k) (hne : k ≠ "") :
    (get_settings (reloadConfig s env file) env2 file2).1.1 =
      (load_initial_config env file).1 ∧
    (get_settings (reloadConfig s env file) env2 file2).1.1.amap.api_key = k := by
  have h1 : (get_settings (reloadConfig s env file) env2 file2).1.1 =
      (load_initial_config env file).1 := by
    simp [get_settings, reloadConfig]
  have ht : envTruthy env.amap_api_key = true := by simp [envTruthy, hk, hne]
  refine ⟨h1, ?_⟩
  rw [h1, load_env_override_eq env file ht]
  simp [hk]

/-- Witness for C7: a stale snapshot holding key old is replaced by a
reload under an environment holding key newkey. -/
theorem c7_reload_witness :
    (get_settings
        (reloadConfig
          ⟨some { amap := { api_key := "old", security_js_code := none }
                , log := LogSettings.default }⟩
          ⟨some "newkey", none, none, none⟩ ConfigFile.absent)
        ⟨none, none, none, none⟩ ConfigFile.absent).1.1.amap.api_key = "newkey" :=
  (c7_reload
    ⟨some { amap := { api_key := "old", security_js_code := none }
          , log := LogSettings.default }⟩
    ⟨some "newkey", none, none, none⟩ ⟨none, none, none, none⟩
    ConfigFile.absent ConfigFile.absent "newkey" rfl (by decide)).2

/-- C9: when the environment variable is not truthy and the file parses
with a non-empty string api key but either pydantic construction fails
validation, the file's api key is discarded: resolution falls back to the
environment-built configuration with default log settings and prints the
warning. -/
theorem c9_validation_fallback (env : Env) (d : TomlData) (t : AmapTable)
    (k : String) (e : String)
    (henv : envTruthy env.amap_api_key = false)
    (ht : d.amap = some t) (hk : t.api_key = some (.str k)) (hne : k ≠ "")
    (hval : mkAMapSettings t = .error e ∨ mkLogSettings d.log = .error e) :
    get_settings ⟨none⟩ env (.parsed d) =
      ((fallbackConfig env, true), ⟨some (fallbackConfig env)⟩) := by
  have htruthy : tvalTruthy t.api_key = true := by simp [tvalTruthy, hk, hne]
  have herr : ∃ e2, loadBody env (.parsed d) = .error e2 := by
    cases hma : mkAMapSettings t with
    | error e2 => exact ⟨e2, by simp [loadBody, henv, ht, htruthy, hma]⟩
    | ok a =>
      cases hval with
      | inl h => rw [hma] at h; exact absurd h (by simp)
      | inr h => exact ⟨e, by simp [loadBody, henv, ht, htruthy, hma, h]⟩
  obtain ⟨e2, herr⟩ := herr
  simp [get_settings, load_initial_config, herr]

/-- Witness for C9: a file with api key xyz but a non-string log level is
discarded entirely in favor of the environment fallback. -/
theorem c9_validation_fallback_witness :
    get_settings ⟨none⟩ ⟨none, none, none, none⟩
        (ConfigFile.parsed ⟨some ⟨some (.str "xyz"), none⟩,
          some ⟨some (.nonStr true), none⟩⟩) =
      ((fallbackConfig ⟨none, none, none, none⟩, true),
        ⟨some (fallbackConfig ⟨none, none, none, none⟩)⟩) :=
  c9_validation_fallback ⟨none, none, none, none⟩
    ⟨some ⟨some (.str "xyz"), none⟩, some ⟨some (.nonStr true), none⟩⟩
    ⟨some (.str "xyz"), none⟩ "xyz" "ValidationError: level"
    rfl rfl rfl (by decide) (Or.inr rfl)

end MeetSpot
